import Mathlib

/-!
Shallow embedding of the WhatsApp templates repository core
(Template entity, the persistence-integrated Store variant, and the
Persistence module) together with theorems settling the specification
claims.

Modelling conventions:
- JS strings are Lean `String`; JS string truthiness is non-emptiness
  (`undefined` text fields and the empty string are both falsy and are
  collapsed to `""`, which the modelled code paths never distinguish).
- Dates are integer millisecond timestamps (`Millis`); the ISO-8601
  rendering written by `toISOString` and parsed back by `new Date` is a
  bijection on valid dates and is elided, keeping the timestamp itself.
- A thrown JS exception is `Except.error`; a `try/catch` block is the
  `catchFallback` wrapper below.  Functions whose every exception is caught
  internally are total.
- The identifier produced by `Date.now() + Math.random()` inside the
  `Template` constructor is nondeterministic ambient input; it is made
  an explicit parameter of the constructor (and of every operation that
  constructs templates).
-/

/-! ## Template entity (js Template class) -/

abbrev Millis := Int

/-- Truthiness of a JS string: non-empty. -/
def truthyStr (s : String) : Bool := s != ""

structure Template where
  titulo : String
  mensaje : String
  hashtag : String
  categoria : String
  fechaCreacion : Millis
  id : Nat
deriving DecidableEq, Repr

/-- The `Template` constructor: stores the four text fields and the
creation date, and assigns `this.id = Date.now() + Math.random()`,
modelled as the explicit fresh identifier `freshId`. -/
def Template.new (freshId : Nat) (titulo mensaje hashtag categoria : String)
    (fechaCreacion : Millis) : Template :=
  { titulo := titulo, mensaje := mensaje, hashtag := hashtag,
    categoria := categoria, fechaCreacion := fechaCreacion, id := freshId }

/-- JS `esValida()`: `this.titulo && this.mensaje && this.hashtag && this.categoria`. -/
def Template.esValida (t : Template) : Bool :=
  truthyStr t.titulo && truthyStr t.mensaje && truthyStr t.hashtag && truthyStr t.categoria

/-! ## Store (persistence-integrated variant) -/

abbrev JsError := String

/-- Event passed to subscribers by `_notificarCambios` (the claims only
inspect that a notification happened, so the event carries its type). -/
structure Evento where
  tipo : String

/-- A subscriber callback: given the event and the outside world, it
performs its side effects (the new world) and reports whether it threw.
In JS, effects made before a throw persist, so the new world is returned
in both cases. -/
def Subscriber (W : Type) := Evento → W → W × Bool

/-- JS `_notificarCambios`: `this._suscriptores.forEach(cb => { try { cb(evento) } catch { log } })`.
Each callback runs once, in order; the per-subscriber `try/catch`
swallows a throw, so the loop always continues with the next callback. -/
def notificarCambios {W : Type} (subs : List (Subscriber W)) (ev : Evento) (w : W) : W :=
  subs.foldl (fun wacc cb => (cb ev wacc).1) w

/-- A JS value passed where a `Template` is expected: either an actual
`Template` instance or any other value (`instanceof` fails). -/
inductive JsValue where
  | template (t : Template)
  | other
deriving DecidableEq

/-- A `try { body } catch (error) { console.error(...); return fallback }`
wrapper: an escaping exception is converted to the fallback result. -/
def catchFallback {α : Type} (fallback : α) (body : Except JsError α) : Except JsError α :=
  match body with
  | .ok r => .ok r
  | .error _ => .ok fallback

/-- Body of `Store.agregarPlantilla` before its surrounding catch:
throws unless the argument is a `Template` instance passing `esValida()`;
otherwise appends (`[...this._state.plantillas, nuevaPlantilla]`),
notifies subscribers, and returns `true`. -/
def agregarPlantillaBody {W : Type} (subs : List (Subscriber W)) (st : List Template)
    (w : W) (v : JsValue) : Except JsError (List Template × W × Bool) :=
  match v with
  | .other => .error "Debe ser una instancia de Template"
  | .template t =>
    if t.esValida then
      .ok (st ++ [t], notificarCambios subs (Evento.mk "PLANTILLA_AGREGADA") w, true)
    else .error "La plantilla no tiene todos los campos requeridos"

/-- JS `Store.agregarPlantilla`: the body wrapped in `try/catch`, returning
`false` with the state untouched when the body throws. -/
def agregarPlantilla {W : Type} (subs : List (Subscriber W)) (st : List Template)
    (w : W) (v : JsValue) : Except JsError (List Template × W × Bool) :=
  catchFallback (st, w, false) (agregarPlantillaBody subs st w v)

/-- JS `Store.getPlantillaPorId`: `find(p => p.id === id) || null`. -/
def getPlantillaPorId (st : List Template) (id : Nat) : Option Template :=
  st.find? (fun p => p.id == id)

/-- Body of `Store.eliminarPlantilla` before its surrounding catch:
throws when the id is absent; otherwise filters the id out
(`filter(p => p.id !== id)`), notifies, and returns `true`. -/
def eliminarPlantillaBody {W : Type} (subs : List (Subscriber W)) (st : List Template)
    (w : W) (id : Nat) : Except JsError (List Template × W × Bool) :=
  match getPlantillaPorId st id with
  | none => .error "Plantilla no encontrada"
  | some _ =>
    .ok (st.filter (fun p => p.id != id),
         notificarCambios subs (Evento.mk "PLANTILLA_ELIMINADA") w, true)

/-- JS `Store.eliminarPlantilla`: the body wrapped in `try/catch`. -/
def eliminarPlantilla {W : Type} (subs : List (Subscriber W)) (st : List Template)
    (w : W) (id : Nat) : Except JsError (List Template × W × Bool) :=
  catchFallback (st, w, false) (eliminarPlantillaBody subs st w id)

/-- JS `Store.limpiarTodas`: replaces the collection with `[]`, notifies,
and returns `true`; the body is inside `try/catch` as well. -/
def limpiarTodas {W : Type} (subs : List (Subscriber W)) (st : List Template)
    (w : W) : Except JsError (List Template × W × Bool) :=
  catchFallback (st, w, false)
    (.ok ([], notificarCambios subs (Evento.mk "TODAS_ELIMINADAS") w, true))

/-- A JS value passed to `suscribirse`: a function or not a function. -/
inductive CallbackValue (W : Type) where
  | fn (cb : Subscriber W)
  | notFn

/-- JS `Store.suscribirse`: throws (uncaught, there is no surrounding
try/catch) when the argument is not a function; otherwise pushes the
callback onto `_suscriptores` (and returns an unsubscribe closure,
not modelled). -/
def suscribirse {W : Type} (subs : List (Subscriber W)) (v : CallbackValue W) :
    Except JsError (List (Subscriber W)) :=
  match v with
  | .notFn => .error "El callback debe ser una función"
  | .fn cb => .ok (subs ++ [cb])

/-- JS `Store.getEstadisticas` (the fields the claims observe): total count,
category histogram, emptiness flag. -/
structure Estadisticas where
  total : Nat
  categorias : List (String × Nat)
  estaVacio : Bool
deriving DecidableEq, Repr

/-- JS object-as-histogram update: `acc[c] = (acc[c] || 0) + 1`, with the
insertion order of keys preserved. -/
def bumpCategoria (acc : List (String × Nat)) (c : String) : List (String × Nat) :=
  if acc.any (fun kv => kv.1 == c) then
    acc.map (fun kv => if kv.1 == c then (kv.1, kv.2 + 1) else kv)
  else acc ++ [(c, 1)]

/-- Category histogram built by iterating over the collection
(`Store.getEstadisticas` and `Persistence._obtenerCategorias` build it
the same way). -/
def obtenerCategorias (plantillas : List Template) : List (String × Nat) :=
  plantillas.foldl (fun acc p => bumpCategoria acc p.categoria) []

def getEstadisticas (plantillas : List Template) : Estadisticas :=
  { total := plantillas.length,
    categorias := obtenerCategorias plantillas,
    estaVacio := plantillas.length == 0 }

/-! ## Heap model for array aliasing (`getPlantillas` defensive copy)

JS arrays are heap references.  To state that `getPlantillas` returns a
copy rather than the internal array, arrays of templates live in a small
heap addressed by allocation order; `[...xs]` allocates a fresh array
with the same contents. -/

structure Heap where
  arrays : List (List Template)

def Heap.read (h : Heap) (a : Nat) : List Template :=
  (h.arrays[a]?).getD []

def Heap.alloc (h : Heap) (xs : List Template) : Heap × Nat :=
  (⟨h.arrays ++ [xs]⟩, h.arrays.length)

def Heap.write (h : Heap) (a : Nat) (xs : List Template) : Heap :=
  ⟨h.arrays.set a xs⟩

/-- JS `Store.getPlantillas`: `return [...this._state.plantillas]` — reads
the internal array and allocates a fresh copy of it, returning the new
reference. -/
def getPlantillas (h : Heap) (storeRef : Nat) : Heap × Nat :=
  h.alloc (h.read storeRef)

/-! ## Persistence (js/models/persistence.js)

JSON values are modelled by `JVal`.  A string sitting in a storage slot
is represented by its `JSON.parse` outcome, with the empty string kept
as its own case because JS truthiness distinguishes it from every other
stored string. -/

inductive JVal where
  | null
  | bool (b : Bool)
  | num (n : Millis)
  | str (s : String)
  | arr (elems : List JVal)
  | obj (fields : List (String × JVal))

/-- JS truthiness of a parsed JSON value. -/
def JVal.truthy : JVal → Bool
  | .null => false
  | .bool b => b
  | .num n => n != 0
  | .str s => truthyStr s
  | .arr _ => true
  | .obj _ => true

/-- JS `typeof x === 'object'` for a parsed JSON value (arrays and `null`
also have typeof `object` in JS). -/
def JVal.isObjectType : JVal → Bool
  | .obj _ => true
  | .arr _ => true
  | .null => true
  | _ => false

/-- Property read `x.k`: `some` when x is an object with the key,
otherwise JS `undefined` (`none`). -/
def JVal.getField : JVal → String → Option JVal
  | .obj fs, k => (fs.find? (fun kv => kv.1 == k)).map (fun kv => kv.2)
  | _, _ => none

/-- Truthiness of a property read (`undefined` is falsy). -/
def getTruthy (v : JVal) (k : String) : Bool :=
  match v.getField k with
  | some x => x.truthy
  | none => false

/-- Text-field read used by deserialization.  Model restriction: a text
field, when present, holds a string; an absent field reads as the falsy
`""` (JS `undefined`). -/
def getStr (v : JVal) (k : String) : String :=
  match v.getField k with
  | some (.str s) => s
  | _ => ""

/-- Date-field read: the stored ISO string is modelled by its millisecond
value (see the header); an absent or non-date field yields the modelled
invalid date 0. -/
def getDate (v : JVal) (k : String) : Millis :=
  match v.getField k with
  | some (.num n) => n
  | _ => 0

/-- Escaping done by `JSON.stringify` inside string literals (quote and
backslash; rarely-occurring control characters are elided, which only
affects the modelled byte count of the blob). -/
def escapeJson (s : String) : String :=
  String.join (s.toList.map (fun c =>
    if c = '"' then "\\\"" else if c = '\\' then "\\\\" else String.singleton c))

mutual
/-- JS `JSON.stringify` of a parsed value, used for the serialized blob and
its size check. -/
def JVal.stringify : JVal → String
  | .null => "null"
  | .bool true => "true"
  | .bool false => "false"
  | .num n => toString n
  | .str s => "\"" ++ escapeJson s ++ "\""
  | .arr xs => "[" ++ stringifyArr xs ++ "]"
  | .obj fs => "\x7b" ++ stringifyObj fs ++ "\x7d"

def stringifyArr : List JVal → String
  | [] => ""
  | [x] => JVal.stringify x
  | x :: y :: xs => JVal.stringify x ++ "," ++ stringifyArr (y :: xs)

def stringifyObj : List (String × JVal) → String
  | [] => ""
  | [kv] => "\"" ++ escapeJson kv.1 ++ "\":" ++ JVal.stringify kv.2
  | kv :: kw :: xs =>
    "\"" ++ escapeJson kv.1 ++ "\":" ++ JVal.stringify kv.2 ++ "," ++ stringifyObj (kw :: xs)
end

/-- JS `PERSISTENCE_CONFIG.MAX_STORAGE_SIZE`. -/
def MAX_STORAGE_SIZE : Nat := 5 * 1024 * 1024

/-- JS `PERSISTENCE_CONFIG.VERSION`. -/
def CONFIG_VERSION : String := "1.0"

/-- JS `Persistence._verificarTamañoStorage`: `datos.length < MAX_STORAGE_SIZE`. -/
def verificarTamanoStorage (datos : String) : Bool :=
  datos.length < MAX_STORAGE_SIZE

/-- A string held in a LocalStorage slot, represented by its
`JSON.parse` outcome; the empty string is kept apart because it is the
only stored string that is falsy. -/
inductive StoredString where
  | emptyStr
  | notJson
  | json (v : JVal)

/-- The two LocalStorage slots used by Persistence. -/
structure LocalStorage where
  primary : Option StoredString
  backup : Option StoredString

/-- Truthiness of `localStorage.getItem(...)`: `null` and `""` are falsy. -/
def truthyStored : Option StoredString → Bool
  | none => false
  | some .emptyStr => false
  | some _ => true

/-- JS `Persistence._serializarPlantilla`: the plain record
`{id, titulo, mensaje, hashtag, categoria, fechaCreacion: iso}`. -/
def serializarPlantilla (p : Template) : JVal :=
  .obj [("id", .num p.id), ("titulo", .str p.titulo), ("mensaje", .str p.mensaje),
        ("hashtag", .str p.hashtag), ("categoria", .str p.categoria),
        ("fechaCreacion", .num p.fechaCreacion)]

/-- JS `Persistence._deserializarPlantilla`: `new Template(datos.titulo,
datos.mensaje, datos.hashtag, datos.categoria, new Date(datos.fechaCreacion))`.
The record's `id` field is not read; the constructor assigns the fresh
identifier `freshId`. -/
def deserializarPlantilla (freshId : Nat) (datos : JVal) : Template :=
  Template.new freshId (getStr datos "titulo") (getStr datos "mensaje")
    (getStr datos "hashtag") (getStr datos "categoria") (getDate datos "fechaCreacion")

/-- The versioned envelope built by `guardarPlantillas` (`now` is the
ambient `new Date().toISOString()` timestamp). -/
def envelopeOf (now : Millis) (plantillas : List Template) : JVal :=
  .obj [("version", .str CONFIG_VERSION),
        ("timestamp", .num now),
        ("plantillas", .arr (plantillas.map serializarPlantilla)),
        ("metadata", .obj [("total", .num plantillas.length),
                           ("categorias", .obj ((obtenerCategorias plantillas).map
                             (fun kv => (kv.1, JVal.num kv.2))))])]

/-- JS `Persistence._crearBackup`: copies the primary blob to the backup
slot when one exists (its internal try/catch cannot fire in the model). -/
def crearBackup (ls : LocalStorage) : LocalStorage :=
  match ls.primary with
  | some d => { ls with backup := some d }
  | none => ls

/-- JS `Persistence.guardarPlantillas`: serializes the envelope, checks the
size ceiling, and only within budget backs up then writes; a failed
check throws, which the surrounding catch converts to `false` with no
write.  Returns the updated storage and the success flag. -/
def guardarPlantillas (now : Millis) (ls : LocalStorage) (plantillas : List Template) :
    LocalStorage × Bool :=
  let jsonString := (envelopeOf now plantillas).stringify
  if verificarTamanoStorage jsonString then
    let ls1 := crearBackup ls
    ({ ls1 with primary := some (.json (envelopeOf now plantillas)) }, true)
  else
    (ls, false)

/-- One entry of `datos.plantillas.every(...)` inside
`_validarEstructuraDatos`: `plantilla && typeof plantilla === 'object'
&& plantilla.titulo && plantilla.mensaje && plantilla.hashtag &&
plantilla.categoria`. -/
def validarPlantillaEntry (p : JVal) : Bool :=
  p.truthy && p.isObjectType && getTruthy p "titulo" && getTruthy p "mensaje" &&
    getTruthy p "hashtag" && getTruthy p "categoria"

/-- JS `Persistence._validarEstructuraDatos`: the early `return false`
checks written as one short-circuit conjunction — the value must be
truthy, of typeof `object`, carry a truthy `version`, carry a
`plantillas` array (a missing or non-array field fails, exactly like the
source's `!datos.plantillas || !Array.isArray(datos.plantillas)`), and
every entry must pass the per-entry check.  The version-mismatch branch
only logs a warning and is behaviourally inert. -/
def validarEstructuraDatos (datos : JVal) : Bool :=
  datos.truthy && datos.isObjectType && getTruthy datos "version" &&
    (match datos.getField "plantillas" with
     | some (.arr xs) => xs.all validarPlantillaEntry
     | _ => false)

/-- The `datos.plantillas` array (after validation it is always present). -/
def plantillasArr (datos : JVal) : List JVal :=
  match datos.getField "plantillas" with
  | some (.arr xs) => xs
  | _ => []

/-- Sequential deserialization of the stored entries: the k-th
constructor call during this load receives the fresh identifier
`ids k`.  The per-entry `try { deserializar } catch { return null }`
with the trailing `filter(p => p !== null)` never drops an entry,
because neither the `Template` constructor nor `new Date` throws. -/
def deserializeFrom (ids : Nat → Nat) (k : Nat) : List JVal → List Template
  | [] => []
  | d :: rest => deserializarPlantilla (ids k) d :: deserializeFrom ids (k + 1) rest

/-- JS `Persistence._procesarDatosGuardados`: `JSON.parse`, then whole-envelope
structure validation (throwing on failure), then entry deserialization.
The thrown errors are rethrown as the load error seen by `cargarPlantillas`. -/
def procesarDatosGuardados (ids : Nat → Nat) (s : StoredString) :
    Except JsError (List Template) :=
  match s with
  | .emptyStr => .error "Datos corruptos en LocalStorage"
  | .notJson => .error "Datos corruptos en LocalStorage"
  | .json datos =>
    if validarEstructuraDatos datos then
      .ok (deserializeFrom ids 0 (plantillasArr datos))
    else
      .error "Datos corruptos en LocalStorage: Estructura de datos inválida"

/-- JS `Persistence._obtenerPlantillasDefault`: the fixed pair of default
templates (fresh ids from the ambient generator, creation date `now`). -/
def obtenerPlantillasDefault (ids : Nat → Nat) (now : Millis) : List Template :=
  [Template.new (ids 0) "Bienvenida Automática"
     "¡Hola! 👋 Gracias por contactarnos. Te responderemos en breve. ¿En qué podemos ayudarte?"
     "#bienvenida" "soporte" now,
   Template.new (ids 1) "Confirmación de Pedido"
     "Tu pedido #\x7b\x7bNUMERO\x7d\x7d ha sido recibido ✅. Te notificaremos cuando esté listo para entrega."
     "#confirmacion" "ventas" now]

/-- JS `Persistence._intentarRecuperacion`: when the backup slot holds a
truthy string, try to process it; on any throw (caught) or when the
backup is absent, fall back to the default pair. -/
def intentarRecuperacion (ids : Nat → Nat) (now : Millis) (ls : LocalStorage) :
    List Template :=
  match ls.backup with
  | some .notJson => obtenerPlantillasDefault ids now
  | some (.json datos) =>
    match procesarDatosGuardados ids (.json datos) with
    | .ok ts => ts
    | .error _ => obtenerPlantillasDefault ids now
  | some .emptyStr => obtenerPlantillasDefault ids now
  | none => obtenerPlantillasDefault ids now

/-- JS `Persistence.cargarPlantillas`: reads the primary slot; a falsy read
(absent or empty) yields the default pair; otherwise the blob is
processed, and a processing throw is caught and answered by
`_intentarRecuperacion`.  Every exception is caught, so the load is a
total function. -/
def cargarPlantillas (ids : Nat → Nat) (now : Millis) (ls : LocalStorage) :
    List Template :=
  match ls.primary with
  | none => obtenerPlantillasDefault ids now
  | some .emptyStr => obtenerPlantillasDefault ids now
  | some s =>
    match procesarDatosGuardados ids s with
    | .ok ts => ts
    | .error _ => intentarRecuperacion ids now ls

/-- The field-by-field view of a collection used by the round-trip
claim: title, message, hashtag, category, and creation timestamp. -/
def camposDe (ts : List Template) : List (String × String × String × String × Millis) :=
  ts.map (fun t => (t.titulo, t.mensaje, t.hashtag, t.categoria, t.fechaCreacion))

/-! ## Concrete instances used by counterexamples and witnesses -/

def plantillaDoble : Template :=
  { titulo := "Bienvenida", mensaje := "Hola", hashtag := "#hola",
    categoria := "soporte", fechaCreacion := 0, id := 1 }

def plantillaNueva : Template :=
  { titulo := "Oferta", mensaje := "Descuento", hashtag := "#promo",
    categoria := "marketing", fechaCreacion := 0, id := 3 }

def plantillaSinMensaje : Template :=
  { titulo := "Bienvenida", mensaje := "", hashtag := "#hola",
    categoria := "soporte", fechaCreacion := 0, id := 2 }

def plantillaParaBorrar : Template :=
  { titulo := "Aviso", mensaje := "Cerramos", hashtag := "#aviso",
    categoria := "soporte", fechaCreacion := 0, id := 7 }

/-! ## Claims about the Store (C2 - C5) -/

/-- Every wrapped Store mutation answers without an escaping exception. -/
theorem catchFallback_isOk {α : Type} (fallback : α) (body : Except JsError α) :
    (catchFallback fallback body).isOk = true := by
  cases body <;> rfl

/-- C2 counterexample: `suscribirse` is a Store operation, and called with
a value that is not a function it propagates a language-level exception to
the caller (there is no surrounding try/catch), instead of returning a
boolean success flag.  This refutes the claim that every Store operation
returns a boolean and never throws. -/
theorem claim_C2_counterexample :
    suscribirse ([] : List (Subscriber Unit)) CallbackValue.notFn =
      Except.error "El callback debe ser una función" := rfl

/-- C2 (amended): the mutation operations (`agregarPlantilla`,
`eliminarPlantilla`, `limpiarTodas`) return a boolean success flag and
never propagate an exception, for every input; `suscribirse`, however,
throws when its argument is not a function, and on success returns the
extended subscriber list (an unsubscribe closure, not a boolean). -/
theorem claim_C2_amended {W : Type} (subs : List (Subscriber W)) (st : List Template)
    (w : W) (v : JsValue) (id : Nat) (cb : Subscriber W) :
    (agregarPlantilla subs st w v).isOk = true
    ∧ (eliminarPlantilla subs st w id).isOk = true
    ∧ (limpiarTodas subs st w).isOk = true
    ∧ suscribirse subs (CallbackValue.fn cb) = .ok (subs ++ [cb])
    ∧ suscribirse subs CallbackValue.notFn =
        Except.error "El callback debe ser una función" :=
  ⟨catchFallback_isOk _ _, catchFallback_isOk _ _, catchFallback_isOk _ _, rfl, rfl⟩

/-- C3 counterexample: the store already holds `plantillaDoble`; adding the
same valid template again returns `true` and appends it, but the appended
record's identifier then occurs twice in the collection — the Store never
enforces identifier uniqueness, refuting the claim that the new record's
identifier is unique in the collection. -/
theorem claim_C3_counterexample :
    agregarPlantilla ([] : List (Subscriber Unit)) [plantillaDoble] ()
        (JsValue.template plantillaDoble) =
      .ok ([plantillaDoble, plantillaDoble], (), true)
    ∧ (([plantillaDoble, plantillaDoble].map Template.id).count plantillaDoble.id) = 2 :=
  ⟨rfl, rfl⟩

/-- C3 (amended): for a Template whose four required fields are non-empty,
`agregarPlantilla` returns `true` and the collection becomes the prior
collection with exactly that record appended (fields and identifier of
`t`); the appended identifier is unique in the collection only when it did
not already occur, since the Store performs no uniqueness check. -/
theorem claim_C3_amended {W : Type} (subs : List (Subscriber W)) (st : List Template)
    (w : W) (t : Template)
    (h1 : t.titulo ≠ "") (h2 : t.mensaje ≠ "") (h3 : t.hashtag ≠ "") (h4 : t.categoria ≠ "") :
    agregarPlantilla subs st w (.template t) =
      .ok (st ++ [t], notificarCambios subs (Evento.mk "PLANTILLA_AGREGADA") w, true)
    ∧ (t.id ∉ st.map Template.id → ((st ++ [t]).map Template.id).count t.id = 1) := by
  have hv : t.esValida = true := by
    simp [Template.esValida, truthyStr, h1, h2, h3, h4]
  refine ⟨?_, ?_⟩
  · simp [agregarPlantilla, agregarPlantillaBody, hv, catchFallback]
  · intro hnotin
    simp [List.count_append, List.count_eq_zero.mpr hnotin]

/-- Witness for C3 (amended) at a concrete input. -/
theorem claim_C3_amended_witness :
    agregarPlantilla ([] : List (Subscriber Unit)) [plantillaDoble] ()
        (.template plantillaNueva) =
      .ok ([plantillaDoble] ++ [plantillaNueva],
           notificarCambios ([] : List (Subscriber Unit)) (Evento.mk "PLANTILLA_AGREGADA") (),
           true)
    ∧ (([plantillaDoble] ++ [plantillaNueva]).map Template.id).count plantillaNueva.id = 1 := by
  have h := claim_C3_amended ([] : List (Subscriber Unit)) [plantillaDoble] () plantillaNueva
    (by decide) (by decide) (by decide) (by decide)
  exact ⟨h.1, h.2 (by decide)⟩

/-- C4: adding a template with any of the four required fields missing
(the JS `undefined` and the empty string are both the falsy `""` in the
model) returns `false` and leaves the collection, and the outside world,
unchanged. -/
theorem claim_C4 {W : Type} (subs : List (Subscriber W)) (st : List Template)
    (w : W) (t : Template)
    (h : t.titulo = "" ∨ t.mensaje = "" ∨ t.hashtag = "" ∨ t.categoria = "") :
    agregarPlantilla subs st w (.template t) = .ok (st, w, false) := by
  have hv : t.esValida = false := by
    rcases h with h | h | h | h <;> simp [Template.esValida, truthyStr, h]
  simp [agregarPlantilla, agregarPlantillaBody, hv, catchFallback]

/-- Witness for C4 at a concrete input. -/
theorem claim_C4_witness :
    agregarPlantilla ([] : List (Subscriber Unit)) [] ()
        (.template plantillaSinMensaje) = .ok ([], (), false) :=
  claim_C4 ([] : List (Subscriber Unit)) [] () plantillaSinMensaje
    (Or.inr (Or.inl rfl))

/-- C5: removing an identifier not present returns `false` and leaves the
collection unchanged; removing a present identifier returns `true` and the
collection becomes the prior collection with every template of that
identifier filtered out, the others unchanged in order. -/
theorem claim_C5 {W : Type} (subs : List (Subscriber W)) (st : List Template)
    (w : W) (id : Nat) :
    ((∀ p ∈ st, p.id ≠ id) → eliminarPlantilla subs st w id = .ok (st, w, false))
    ∧ ((∃ p ∈ st, p.id = id) →
        eliminarPlantilla subs st w id =
          .ok (st.filter (fun p => p.id != id),
               notificarCambios subs (Evento.mk "PLANTILLA_ELIMINADA") w, true)) := by
  constructor
  · intro hall
    have hfind : getPlantillaPorId st id = none := by
      simp only [getPlantillaPorId, List.find?_eq_none, beq_iff_eq]
      exact hall
    simp [eliminarPlantilla, eliminarPlantillaBody, hfind, catchFallback]
  · intro hex
    have hfind : (getPlantillaPorId st id).isSome := by
      simp only [getPlantillaPorId, List.find?_isSome, beq_iff_eq]
      exact hex
    obtain ⟨q, hq⟩ := Option.isSome_iff_exists.mp hfind
    simp [eliminarPlantilla, eliminarPlantillaBody, hq, catchFallback]

/-- Witness for C5 at concrete inputs: an absent and a present identifier. -/
theorem claim_C5_witness :
    eliminarPlantilla ([] : List (Subscriber Unit)) [plantillaParaBorrar] () 9 =
      .ok ([plantillaParaBorrar], (), false)
    ∧ eliminarPlantilla ([] : List (Subscriber Unit)) [plantillaParaBorrar] () 7 =
      .ok ([], (), true) := by
  refine ⟨(claim_C5 ([] : List (Subscriber Unit)) [plantillaParaBorrar] () 9).1 ?_, ?_⟩
  · decide
  · have h := (claim_C5 ([] : List (Subscriber Unit)) [plantillaParaBorrar] () 7).2
      ⟨plantillaParaBorrar, by decide, rfl⟩
    simpa using h

/-! ## Claims about Persistence (C1, C6, C7, C10) -/

def entradaValida : JVal :=
  .obj [("id", .num 10), ("titulo", .str "Valida"), ("mensaje", .str "Hola"),
        ("hashtag", .str "#ok"), ("categoria", .str "soporte"), ("fechaCreacion", .num 5)]

def entradaSinTitulo : JVal :=
  .obj [("id", .num 11), ("mensaje", .str "Hola"), ("hashtag", .str "#ok"),
        ("categoria", .str "soporte"), ("fechaCreacion", .num 5)]

/-- A stored envelope holding one well-formed entry alongside one entry
missing its required `titulo`. -/
def envelopeMixto : JVal :=
  .obj [("version", .str "1.0"), ("timestamp", .num 0),
        ("plantillas", .arr [entradaValida, entradaSinTitulo])]

def lsMixto : LocalStorage :=
  { primary := some (.json envelopeMixto), backup := none }

/-- C1 counterexample: the stored envelope `envelopeMixto` holds a
well-formed entry alongside one entry missing its required title, and no
backup exists.  The claim predicts that load keeps the well-formed entry
and drops only the malformed one; instead `_validarEstructuraDatos`
rejects the whole envelope (its `every` requires all entries well-formed),
and load falls back to the default pair, discarding the well-formed
entry. -/
theorem claim_C1_counterexample :
    cargarPlantillas (fun k => k) 0 lsMixto = obtenerPlantillasDefault (fun k => k) 0
    ∧ cargarPlantillas (fun k => k) 0 lsMixto ≠ [deserializarPlantilla 0 entradaValida] := by
  refine ⟨rfl, ?_⟩
  decide

/-- C1 (amended): an envelope whose templates array contains any entry
missing a required non-empty field fails the whole-envelope structure
validation, so load treats the entire envelope as corrupt and answers
from the recovery chain (backup, then defaults) instead of accepting the
well-formed entries; entries are only ever dropped individually when
their deserialization throws, which a missing field never causes. -/
theorem claim_C1_amended (ids : Nat → Nat) (now : Millis) (ls : LocalStorage)
    (datos : JVal) (xs : List JVal) (p : JVal)
    (hprim : ls.primary = some (.json datos))
    (hxs : datos.getField "plantillas" = some (.arr xs))
    (hmem : p ∈ xs) (hbad : validarPlantillaEntry p = false) :
    validarEstructuraDatos datos = false
    ∧ cargarPlantillas ids now ls = intentarRecuperacion ids now ls := by
  have hall : xs.all validarPlantillaEntry = false := by
    cases hcase : xs.all validarPlantillaEntry with
    | false => rfl
    | true =>
      have := List.all_eq_true.mp hcase p hmem
      rw [hbad] at this
      exact absurd this (by simp)
  have hval : validarEstructuraDatos datos = false := by
    unfold validarEstructuraDatos
    rw [hxs]
    simp [hall]
  refine ⟨hval, ?_⟩
  rw [cargarPlantillas, hprim]
  simp [procesarDatosGuardados, hval]

/-- Witness for C1 (amended) at the concrete mixed envelope. -/
theorem claim_C1_amended_witness :
    validarEstructuraDatos envelopeMixto = false
    ∧ cargarPlantillas (fun k => k + 2) 1 lsMixto =
        intentarRecuperacion (fun k => k + 2) 1 lsMixto :=
  claim_C1_amended (fun k => k + 2) 1 lsMixto envelopeMixto
    [entradaValida, entradaSinTitulo] entradaSinTitulo rfl rfl
    (List.Mem.tail _ (List.Mem.head _)) rfl

/-- A serialized template passes the per-entry validation exactly when
the template is valid: the serializer stores the four text fields as
strings, and string truthiness is non-emptiness. -/
theorem validarEntry_serializar (t : Template) :
    validarPlantillaEntry (serializarPlantilla t) = t.esValida := rfl

/-- The envelope written by `guardarPlantillas` passes the structure
validation whenever every saved template is valid. -/
theorem validar_envelope (now : Millis) (ts : List Template)
    (hv : ∀ t ∈ ts, t.esValida = true) :
    validarEstructuraDatos (envelopeOf now ts) = true := by
  have hred : validarEstructuraDatos (envelopeOf now ts)
      = (ts.map serializarPlantilla).all validarPlantillaEntry := rfl
  rw [hred, List.all_eq_true]
  intro x hx
  obtain ⟨t, ht, rfl⟩ := List.mem_map.mp hx
  rw [validarEntry_serializar]
  exact hv t ht

/-- Deserializing the serialized entries restores every template field
by field (the identifiers are freshly generated instead). -/
theorem campos_deserialize (ids : Nat → Nat) (ts : List Template) :
    ∀ k, camposDe (deserializeFrom ids k (ts.map serializarPlantilla)) = camposDe ts := by
  induction ts with
  | nil => intro k; rfl
  | cons t rest ih =>
    intro k
    have hhead : deserializarPlantilla (ids k) (serializarPlantilla t)
        = { titulo := t.titulo, mensaje := t.mensaje, hashtag := t.hashtag,
            categoria := t.categoria, fechaCreacion := t.fechaCreacion, id := ids k } := rfl
    simp only [List.map_cons, deserializeFrom, camposDe, hhead] at *
    simp [ih (k + 1)]

/-- C6: saving a collection in which every item is valid (within the
storage size ceiling, the save precondition of the spec) succeeds, and a
subsequent load returns a collection equal to the original field by
field on title, message, hashtag, category, and creation timestamp. -/
theorem claim_C6 (ids : Nat → Nat) (saveNow loadNow : Millis) (ls : LocalStorage)
    (ts : List Template)
    (hv : ∀ t ∈ ts, t.esValida = true)
    (hs : verificarTamanoStorage ((envelopeOf saveNow ts).stringify) = true) :
    (guardarPlantillas saveNow ls ts).2 = true
    ∧ camposDe (cargarPlantillas ids loadNow (guardarPlantillas saveNow ls ts).1) =
        camposDe ts := by
  have hval := validar_envelope saveNow ts hv
  have hsave : guardarPlantillas saveNow ls ts
      = ({ primary := some (.json (envelopeOf saveNow ts)),
           backup := (crearBackup ls).backup }, true) := by
    simp only [guardarPlantillas, hs, if_true]
  rw [hsave]
  refine ⟨rfl, ?_⟩
  simp only [cargarPlantillas, procesarDatosGuardados, hval, if_true]
  exact campos_deserialize ids ts 0

def plantillaGuardada : Template :=
  { titulo := "Recordatorio", mensaje := "Su cita es hoy", hashtag := "#cita",
    categoria := "ventas", fechaCreacion := 12, id := 21 }

set_option maxRecDepth 20000 in
/-- Witness for C6 at a concrete one-element collection. -/
theorem claim_C6_witness :
    (guardarPlantillas 3 { primary := none, backup := none } [plantillaGuardada]).2 = true
    ∧ camposDe (cargarPlantillas (fun k => k) 4
        (guardarPlantillas 3 { primary := none, backup := none } [plantillaGuardada]).1) =
        camposDe [plantillaGuardada] := by
  have h := claim_C6 (fun k => k) 3 4 { primary := none, backup := none } [plantillaGuardada]
    (by decide) (by decide)
  exact h

def entradaBuena : JVal :=
  .obj [("id", .num 30), ("titulo", .str "Guardada"), ("mensaje", .str "Texto"),
        ("hashtag", .str "#bk"), ("categoria", .str "ventas"), ("fechaCreacion", .num 8)]

/-- A fully valid backup envelope holding one entry. -/
def envelopeBueno : JVal :=
  .obj [("version", .str "1.0"), ("timestamp", .num 0),
        ("plantillas", .arr [entradaBuena])]

def lsVacioConBackup : LocalStorage :=
  { primary := some .emptyStr, backup := some (.json envelopeBueno) }

/-- C7 counterexample: the empty string is a stored string that is not
valid JSON, and here the backup slot holds a fully valid envelope (its
processing succeeds and yields one template).  The claim predicts that
load returns the backup's templates; instead the falsy read of the empty
string makes load treat the primary slot as absent and return the
default pair without ever consulting the backup. -/
theorem claim_C7_counterexample :
    cargarPlantillas (fun k => k) 0 lsVacioConBackup =
      obtenerPlantillasDefault (fun k => k) 0
    ∧ procesarDatosGuardados (fun k => k) (.json envelopeBueno) =
        .ok [deserializarPlantilla 0 entradaBuena]
    ∧ obtenerPlantillasDefault (fun k => k) 0 ≠ [deserializarPlantilla 0 entradaBuena] := by
  refine ⟨rfl, rfl, ?_⟩
  decide

/-- C7 (amended): for every NON-empty string in the primary slot that is
not valid JSON or fails the envelope shape validation, load never throws
and answers from the recovery chain: the backup's deserialized templates
when the backup processes successfully, and the fixed default pair when
the backup is absent or fails processing.  For the empty string (also
not valid JSON) the falsy read short-circuits to the default pair
without consulting the backup, so the claim as stated fails there. -/
theorem claim_C7_amended (ids : Nat → Nat) (now : Millis) (ls : LocalStorage)
    (s : StoredString)
    (hprim : ls.primary = some s)
    (hne : s ≠ StoredString.emptyStr)
    (hbad : (procesarDatosGuardados ids s).isOk = false) :
    cargarPlantillas ids now ls = intentarRecuperacion ids now ls
    ∧ (∀ b ts, ls.backup = some b → procesarDatosGuardados ids b = .ok ts →
        cargarPlantillas ids now ls = ts)
    ∧ (∀ b, ls.backup = some b → (procesarDatosGuardados ids b).isOk = false →
        cargarPlantillas ids now ls = obtenerPlantillasDefault ids now)
    ∧ (ls.backup = none → cargarPlantillas ids now ls = obtenerPlantillasDefault ids now) := by
  have herr : ∃ e, procesarDatosGuardados ids s = .error e := by
    cases hcase : procesarDatosGuardados ids s with
    | error e => exact ⟨e, rfl⟩
    | ok ts => rw [hcase] at hbad; exact absurd hbad (by simp [Except.isOk, Except.toBool])
  obtain ⟨e, herr⟩ := herr
  have hmain : cargarPlantillas ids now ls = intentarRecuperacion ids now ls := by
    rw [cargarPlantillas, hprim]
    cases s with
    | emptyStr => exact absurd rfl hne
    | notJson => simp [herr]
    | json v => simp [herr]
  refine ⟨hmain, ?_, ?_, ?_⟩
  · intro b ts hb hok
    rw [hmain, intentarRecuperacion, hb]
    cases b with
    | emptyStr => exact absurd hok (by simp [procesarDatosGuardados])
    | notJson => exact absurd hok (by simp [procesarDatosGuardados])
    | json d => simp [hok]
  · intro b hb hbadb
    have herrb : ∃ e2, procesarDatosGuardados ids b = .error e2 := by
      cases hcase : procesarDatosGuardados ids b with
      | error e2 => exact ⟨e2, rfl⟩
      | ok ts => rw [hcase] at hbadb; exact absurd hbadb (by simp [Except.isOk, Except.toBool])
    obtain ⟨e2, herrb⟩ := herrb
    rw [hmain, intentarRecuperacion, hb]
    cases b with
    | emptyStr => rfl
    | notJson => rfl
    | json d => simp [herrb]
  · intro hb
    rw [hmain, intentarRecuperacion, hb]

def lsCorrupto : LocalStorage :=
  { primary := some .notJson, backup := some (.json envelopeBueno) }

/-- Witness for C7 (amended): a non-JSON primary string with a valid
backup; load answers with the backup's single deserialized template. -/
theorem claim_C7_amended_witness :
    cargarPlantillas (fun k => k) 0 lsCorrupto = intentarRecuperacion (fun k => k) 0 lsCorrupto
    ∧ cargarPlantillas (fun k => k) 0 lsCorrupto = [deserializarPlantilla 0 entradaBuena] := by
  have h := claim_C7_amended (fun k => k) 0 lsCorrupto .notJson rfl
    (fun hcon => StoredString.noConfusion hcon) rfl
  exact ⟨h.1, h.2.1 (.json envelopeBueno) [deserializarPlantilla 0 entradaBuena] rfl rfl⟩

/-- C10: deserialization constructs the Template through the
constructor, which copies the four text fields and the creation date and
assigns the freshly generated identifier; the identifier stored in the
persisted record is never read (changing it changes nothing), so
whenever the fresh identifier differs from the stored one — which the
`Date.now() + Math.random()` source makes the generic case, though the
code never checks it — the persisted identifier is not preserved across
the save/load cycle even though every other field is. -/
theorem claim_C10 (freshId otherId : Nat) (t : Template) (hfresh : freshId ≠ t.id) :
    deserializarPlantilla freshId (serializarPlantilla t) =
      { titulo := t.titulo, mensaje := t.mensaje, hashtag := t.hashtag,
        categoria := t.categoria, fechaCreacion := t.fechaCreacion, id := freshId }
    ∧ (deserializarPlantilla freshId (serializarPlantilla t)).id ≠ t.id
    ∧ deserializarPlantilla freshId (serializarPlantilla { t with id := otherId }) =
        deserializarPlantilla freshId (serializarPlantilla t) :=
  ⟨rfl, hfresh, rfl⟩

def plantillaPersistida : Template :=
  { titulo := "Saludo", mensaje := "Buenos dias", hashtag := "#hola",
    categoria := "soporte", fechaCreacion := 6, id := 40 }

/-- Witness for C10 at a concrete record and fresh identifier. -/
theorem claim_C10_witness :
    deserializarPlantilla 5 (serializarPlantilla plantillaPersistida) =
      { titulo := plantillaPersistida.titulo, mensaje := plantillaPersistida.mensaje,
        hashtag := plantillaPersistida.hashtag, categoria := plantillaPersistida.categoria,
        fechaCreacion := plantillaPersistida.fechaCreacion, id := 5 }
    ∧ (deserializarPlantilla 5 (serializarPlantilla plantillaPersistida)).id ≠
        plantillaPersistida.id
    ∧ deserializarPlantilla 5 (serializarPlantilla { plantillaPersistida with id := 9 }) =
        deserializarPlantilla 5 (serializarPlantilla plantillaPersistida) :=
  claim_C10 5 9 plantillaPersistida (by decide)

/-! ## Claims about the subscriber loop (C8) and the defensive copy (C9) -/

/-- Instrumented subscribers over the world `List Nat`: the subscriber
tagged `(i, f)` records its invocation by appending `i` to the trace and
then reports the throw flag `f` (a subscriber with `f = true` always
throws after its effect). -/
def subsOf (tags : List (Nat × Bool)) : List (Subscriber (List Nat)) :=
  tags.map (fun tg => fun _ w => (w ++ [tg.1], tg.2))

/-- One notification pass over instrumented subscribers appends exactly
the subscription-ordered tag list, whatever the throw flags are. -/
theorem notificar_subsOf (ev : Evento) (tags : List (Nat × Bool)) :
    ∀ w, notificarCambios (subsOf tags) ev w = w ++ tags.map Prod.fst := by
  induction tags with
  | nil => intro w; simp [notificarCambios, subsOf]
  | cons tg rest ih =>
    intro w
    show notificarCambios (subsOf rest) ev (w ++ [tg.1]) = w ++ (tg :: rest).map Prod.fst
    rw [ih (w ++ [tg.1])]
    simp

/-- C8: with any list of subscribers (instrumented as invocation
recorders with arbitrary throw flags, so in particular a first
subscriber that always throws), one notification pass — and hence each
Store mutation, shown here for a successful add, remove, and clear —
extends the invocation trace by exactly the subscription-ordered tag
list: every subscriber, including those after a throwing one, is invoked
exactly once per mutation, synchronously and in order. -/
theorem claim_C8 (tags : List (Nat × Bool)) (ev : Evento) (w : List Nat)
    (st : List Template) (t : Template) (ht : t.esValida = true) (id : Nat)
    (hid : ∃ p ∈ st, p.id = id) :
    notificarCambios (subsOf tags) ev w = w ++ tags.map Prod.fst
    ∧ agregarPlantilla (subsOf tags) st w (.template t) =
        .ok (st ++ [t], w ++ tags.map Prod.fst, true)
    ∧ eliminarPlantilla (subsOf tags) st w id =
        .ok (st.filter (fun p => p.id != id), w ++ tags.map Prod.fst, true)
    ∧ limpiarTodas (subsOf tags) st w = .ok ([], w ++ tags.map Prod.fst, true) := by
  refine ⟨notificar_subsOf ev tags w, ?_, ?_, ?_⟩
  · simp [agregarPlantilla, agregarPlantillaBody, ht, catchFallback,
      notificar_subsOf (Evento.mk "PLANTILLA_AGREGADA") tags w]
  · have hfind : (getPlantillaPorId st id).isSome := by
      simp only [getPlantillaPorId, List.find?_isSome, beq_iff_eq]
      exact hid
    obtain ⟨q, hq⟩ := Option.isSome_iff_exists.mp hfind
    simp [eliminarPlantilla, eliminarPlantillaBody, hq, catchFallback,
      notificar_subsOf (Evento.mk "PLANTILLA_ELIMINADA") tags w]
  · simp [limpiarTodas, catchFallback,
      notificar_subsOf (Evento.mk "TODAS_ELIMINADAS") tags w]

def plantillaEvento : Template :=
  { titulo := "Evento", mensaje := "Notificar", hashtag := "#ev",
    categoria := "soporte", fechaCreacion := 0, id := 4 }

/-- Witness for C8: two subscribers where the first always throws; after
an add, a remove, and a clear, the trace shows the second subscriber
invoked exactly once per mutation, right after the first. -/
theorem claim_C8_witness :
    notificarCambios (subsOf [(1, true), (2, false)]) (Evento.mk "PLANTILLA_AGREGADA") [] =
      [] ++ [(1, true), (2, false)].map Prod.fst
    ∧ agregarPlantilla (subsOf [(1, true), (2, false)]) [plantillaEvento] []
        (.template plantillaEvento) =
      .ok ([plantillaEvento] ++ [plantillaEvento],
           [] ++ [(1, true), (2, false)].map Prod.fst, true)
    ∧ eliminarPlantilla (subsOf [(1, true), (2, false)]) [plantillaEvento] [] 4 =
      .ok ([plantillaEvento].filter (fun p => p.id != 4),
           [] ++ [(1, true), (2, false)].map Prod.fst, true)
    ∧ limpiarTodas (subsOf [(1, true), (2, false)]) [plantillaEvento] [] =
      .ok ([], [] ++ [(1, true), (2, false)].map Prod.fst, true) :=
  claim_C8 [(1, true), (2, false)] (Evento.mk "PLANTILLA_AGREGADA") [] [plantillaEvento]
    plantillaEvento (by decide) 4 ⟨plantillaEvento, by decide, rfl⟩

/-- C9: `getPlantillas` allocates a fresh array: the returned reference
differs from the internal one, it holds the same contents, and writing
any mutation of the collection through the returned reference leaves the
internal collection — and hence what a later `getPlantillas` read or
`getEstadisticas` over it observes — unchanged. -/
theorem claim_C9 (h : Heap) (storeRef : Nat) (hlt : storeRef < h.arrays.length)
    (xs : List Template) :
    (getPlantillas h storeRef).2 ≠ storeRef
    ∧ (getPlantillas h storeRef).1.read (getPlantillas h storeRef).2 = h.read storeRef
    ∧ (getPlantillas h storeRef).1.read storeRef = h.read storeRef
    ∧ ((getPlantillas h storeRef).1.write (getPlantillas h storeRef).2 xs).read storeRef =
        h.read storeRef
    ∧ getEstadisticas
        (((getPlantillas h storeRef).1.write (getPlantillas h storeRef).2 xs).read storeRef) =
        getEstadisticas (h.read storeRef) := by
  have hne : h.arrays.length ≠ storeRef := (Nat.ne_of_lt hlt).symm
  have h1 : (getPlantillas h storeRef).1.read (getPlantillas h storeRef).2 = h.read storeRef := by
    simp [getPlantillas, Heap.alloc, Heap.read, List.getElem?_concat_length]
  have h2 : (getPlantillas h storeRef).1.read storeRef = h.read storeRef := by
    simp [getPlantillas, Heap.alloc, Heap.read, List.getElem?_append_left hlt]
  have h3 : ((getPlantillas h storeRef).1.write (getPlantillas h storeRef).2 xs).read storeRef =
      h.read storeRef := by
    simp only [getPlantillas, Heap.alloc, Heap.write, Heap.read]
    rw [List.getElem?_set_ne hne]
    rw [List.getElem?_append_left hlt]
  exact ⟨hne, h1, h2, h3, congrArg getEstadisticas h3⟩

def plantillaInterna : Template :=
  { titulo := "Interna", mensaje := "Estado", hashtag := "#in",
    categoria := "soporte", fechaCreacion := 0, id := 11 }

/-- Witness for C9: a heap holding the internal one-template collection
at reference 0; emptying the returned copy leaves the internal
collection intact. -/
theorem claim_C9_witness :
    (getPlantillas ⟨[[plantillaInterna]]⟩ 0).2 ≠ 0
    ∧ (getPlantillas ⟨[[plantillaInterna]]⟩ 0).1.read (getPlantillas ⟨[[plantillaInterna]]⟩ 0).2 =
        Heap.read ⟨[[plantillaInterna]]⟩ 0
    ∧ (getPlantillas ⟨[[plantillaInterna]]⟩ 0).1.read 0 = Heap.read ⟨[[plantillaInterna]]⟩ 0
    ∧ ((getPlantillas ⟨[[plantillaInterna]]⟩ 0).1.write
        (getPlantillas ⟨[[plantillaInterna]]⟩ 0).2 []).read 0 =
        Heap.read ⟨[[plantillaInterna]]⟩ 0
    ∧ getEstadisticas (((getPlantillas ⟨[[plantillaInterna]]⟩ 0).1.write
        (getPlantillas ⟨[[plantillaInterna]]⟩ 0).2 []).read 0) =
        getEstadisticas (Heap.read ⟨[[plantillaInterna]]⟩ 0) :=
  claim_C9 ⟨[[plantillaInterna]]⟩ 0 (by decide) []
